import Mathlib

/-!
Shallow embedding of `homeassistant/components/device_automation/trigger.py`.

The module is a dispatch shim: `async_validate_trigger_config` resolves the
trigger platform for the configuration's `domain`, either applies the
platform's static `TRIGGER_SCHEMA` or performs dynamic validation (device
registry lookup, first config entry matching the domain, wait for the entry
to become ready, then delegate to the platform's dynamic validator), and
translates the internal `InvalidDeviceAutomationConfig` exception into
`vol.Invalid` at the boundary.  `async_attach_trigger` resolves the platform
and delegates to its attach capability.

Python exceptions are modelled by `Except HAError`; `await` points are pure
calls into the collaborator functions stored in the `Hass` record.
-/

namespace DeviceAutomationTrigger

/-- A trigger configuration: an immutable string-keyed mapping
(`ConfigType` in the source).  Keys are looked up in stored order. -/
abbrev ConfigType := List (String × String)

def CONF_DOMAIN : String := "domain"

def CONF_DEVICE_ID : String := "device_id"

/-- The exceptions that can flow through this module.
`invalidDeviceAutomationConfig` is the internal condition
(`InvalidDeviceAutomationConfig`), `volInvalid` the externally visible
`vol.Invalid`, `keyError` a Python `KeyError` from an unguarded mapping
access, and `other` any further exception a collaborator raises. -/
inductive HAError where
  | invalidDeviceAutomationConfig (msg : String)
  | volInvalid (msg : String)
  | keyError (key : String)
  | other (msg : String)
deriving DecidableEq

/-- Pure lookup of a key in a configuration mapping. -/
def lookupKey (config : ConfigType) (key : String) : Option String :=
  (config.find? (fun kv => kv.1 = key)).map (fun kv => kv.2)

/-- `config[key]`: the unguarded Python subscript, raising `KeyError`
when the key is absent. -/
def getKey (config : ConfigType) (key : String) : Except HAError String :=
  match lookupKey config key with
  | some v => .ok v
  | none => .error (.keyError key)

/-- `DeviceAutomationType` from the package `__init__`; only `TRIGGER`
is used by this module. -/
inductive DeviceAutomationType where
  | trigger
  | condition
  | action
deriving DecidableEq

/-- A config entry as this module sees it: its id and its integration
domain.  Readiness is queried through the `Hass` collaborator. -/
structure ConfigEntry where
  entry_id : String
  domain : String
deriving DecidableEq

/-- A device registry entry: the stored list of config entry ids
associated with the device. -/
structure DeviceEntry where
  config_entries : List String
deriving DecidableEq

/-- A trigger platform (`DeviceAutomationTriggerProtocol`).  The dynamic
validator is optional: its presence is what `hasattr(platform,
"async_validate_trigger_config")` discriminates.  `α`, `β`, `γ` are the
opaque types of the action callback, the trigger metadata and the detach
handle. -/
structure DeviceAutomationTriggerProtocol (α β γ : Type) where
  TRIGGER_SCHEMA : ConfigType → Except HAError ConfigType
  async_validate_trigger_config :
    Option (ConfigType → Except HAError ConfigType)
  async_attach_trigger : ConfigType → α → β → Except HAError γ

/-- The collaborators reached through `hass`:
platform resolution (`async_get_device_automation_platform`), the device
registry (`dr.async_get(hass).async_get`), the config entry manager
(`hass.config_entries.async_get_entry`) and the readiness wait
(`hass.config_entries.async_wait_component`, returning a boolean). -/
structure Hass (α β γ : Type) where
  async_get_device_automation_platform :
    String → DeviceAutomationType →
      Except HAError (DeviceAutomationTriggerProtocol α β γ)
  device_registry_async_get : String → Option DeviceEntry
  config_entries_async_get_entry : String → Option ConfigEntry
  config_entries_async_wait_component : ConfigEntry → Bool

/-- The `for entry_id in device.config_entries` loop: skip ids the config
entry manager cannot resolve, skip entries of a different domain, and
stop at the first entry whose domain matches. -/
def findDeviceConfigEntry (getEntry : String → Option ConfigEntry)
    (domain : String) : List String → Option ConfigEntry
  | [] => none
  | entry_id :: rest =>
    match getEntry entry_id with
    | none => findDeviceConfigEntry getEntry domain rest
    | some entry =>
      if entry.domain ≠ domain then findDeviceConfigEntry getEntry domain rest
      else some entry

/-- The body of the `try` block of `async_validate_trigger_config`.
Each `match` on an `Except` propagates the error, mirroring Python
exception flow. -/
def validateBody {α β γ : Type} (hass : Hass α β γ) (config : ConfigType) :
    Except HAError ConfigType :=
  match getKey config CONF_DOMAIN with
  | .error e => .error e
  | .ok domain =>
    match hass.async_get_device_automation_platform domain .trigger with
    | .error e => .error e
    | .ok platform =>
      match platform.async_validate_trigger_config with
      | none => platform.TRIGGER_SCHEMA config
      | some dynamicValidate =>
        match getKey config CONF_DEVICE_ID with
        | .error e => .error e
        | .ok device_id =>
          match hass.device_registry_async_get device_id with
          | none => .error (.invalidDeviceAutomationConfig "")
          | some device =>
            match findDeviceConfigEntry hass.config_entries_async_get_entry
                domain device.config_entries with
            | none => .error (.invalidDeviceAutomationConfig "")
            | some device_config_entry =>
              if hass.config_entries_async_wait_component device_config_entry
              then dynamicValidate config
              else .ok config

/-- The `except InvalidDeviceAutomationConfig` clause:
`raise vol.Invalid(str(err) or "Invalid trigger configuration")`.
Every other outcome passes through unchanged. -/
def translateInvalid (r : Except HAError ConfigType) :
    Except HAError ConfigType :=
  match r with
  | .error (.invalidDeviceAutomationConfig msg) =>
    .error (.volInvalid (if msg = "" then "Invalid trigger configuration" else msg))
  | r => r

/-- `async_validate_trigger_config`: the try body wrapped in the boundary
translation. -/
def async_validate_trigger_config {α β γ : Type} (hass : Hass α β γ)
    (config : ConfigType) : Except HAError ConfigType :=
  translateInvalid (validateBody hass config)

/-- `async_attach_trigger`: resolve the platform for the declared domain
and delegate to its attach capability.  No `try` block here. -/
def async_attach_trigger {α β γ : Type} (hass : Hass α β γ)
    (config : ConfigType) (action : α) (trigger_info : β) :
    Except HAError γ :=
  match getKey config CONF_DOMAIN with
  | .error e => .error e
  | .ok domain =>
    match hass.async_get_device_automation_platform domain .trigger with
    | .error e => .error e
    | .ok platform => platform.async_attach_trigger config action trigger_info

/-! ### Concrete fixtures used by examples, witnesses and counterexamples -/

/-- Example config entry of a foreign domain, id `"a"`. -/
def entryA : ConfigEntry := ⟨"a", "other"⟩

/-- Example config entry of the declared domain, id `"b"`. -/
def entryB : ConfigEntry := ⟨"b", "light"⟩

/-- Example config entry manager: resolves `"a"` and `"b"`, nothing else. -/
def getEntryEx : String → Option ConfigEntry := fun i =>
  if i = "a" then some entryA else if i = "b" then some entryB else none

/-- Example device owning the config entries `["a", "b"]`. -/
def deviceEx : DeviceEntry := ⟨["a", "b"]⟩

/-- Example trigger configuration for domain `"light"`, device `"dev1"`. -/
def cfgEx : ConfigType :=
  [("domain", "light"), ("device_id", "dev1"), ("type", "turned_on")]

/-- Example dynamic validator: appends a marker, so its output is
distinguishable from the input. -/
def dynOk : ConfigType → Except HAError ConfigType := fun c =>
  .ok (c ++ [("validated", "1")])

/-- Example platform exposing the dynamic validator `dynOk`. -/
def platformDyn : DeviceAutomationTriggerProtocol Nat Nat Nat :=
  ⟨fun c => .ok c, some dynOk, fun _ a _ => .ok a⟩

/-- Example platform exposing only a static schema. -/
def platformStatic : DeviceAutomationTriggerProtocol Nat Nat Nat :=
  ⟨fun c => .ok (("schema", "1") :: c), none, fun _ a _ => .ok a⟩

/-- Build an example `hass` around a chosen platform and a fixed readiness
answer; only the domain `"light"` resolves, only the device `"dev1"`
exists. -/
def mkHass (p : DeviceAutomationTriggerProtocol Nat Nat Nat) (ready : Bool) :
    Hass Nat Nat Nat :=
  ⟨fun d t => if d = "light" ∧ t = .trigger then .ok p
      else .error (.other "no integration"),
    fun i => if i = "dev1" then some deviceEx else none,
    getEntryEx,
    fun _ => ready⟩

/-! ### Theorems about the claims -/

/-- Claim C1: on the dynamic-validation path, when the matched config
entry's readiness wait answers `false` (the entry will never become ready
in this session), `async_validate_trigger_config` returns the original,
unvalidated configuration unchanged and raises no exception. -/
theorem validate_not_ready_returns_config {α β γ : Type} (hass : Hass α β γ)
    (config : ConfigType) (d did : String)
    (p : DeviceAutomationTriggerProtocol α β γ)
    (v : ConfigType → Except HAError ConfigType) (dev : DeviceEntry)
    (entry : ConfigEntry)
    (hd : lookupKey config CONF_DOMAIN = some d)
    (hp : hass.async_get_device_automation_platform d .trigger = .ok p)
    (hv : p.async_validate_trigger_config = some v)
    (hdid : lookupKey config CONF_DEVICE_ID = some did)
    (hdev : hass.device_registry_async_get did = some dev)
    (hfind : findDeviceConfigEntry hass.config_entries_async_get_entry d
      dev.config_entries = some entry)
    (hwait : hass.config_entries_async_wait_component entry = false) :
    async_validate_trigger_config hass config = .ok config := by
  simp [async_validate_trigger_config, validateBody, translateInvalid,
    getKey, hd, hp, hv, hdid, hdev, hfind, hwait]

/-- Witness for C1 at a concrete environment: the dynamic platform, a
resolvable device and entry, and a readiness wait that answers `false`. -/
theorem validate_not_ready_returns_config_witness :
    async_validate_trigger_config (mkHass platformDyn false) cfgEx =
      .ok cfgEx :=
  validate_not_ready_returns_config (mkHass platformDyn false) cfgEx
    "light" "dev1" platformDyn dynOk deviceEx entryB rfl rfl rfl rfl rfl rfl
    rfl

/-- A `hass` that resolves `"light"` to the static-only platform but whose
device registry and config entry manager are empty: used to show the
static path never consults them. -/
def hassStaticNoReg : Hass Nat Nat Nat :=
  ⟨fun d t => if d = "light" ∧ t = .trigger then .ok platformStatic
      else .error (.other "no integration"),
    fun _ => none,
    fun _ => none,
    fun _ => false⟩

/-- Claim C2: when the resolved platform has no dynamic validate-config
capability, `async_validate_trigger_config` returns exactly the result of
applying the platform's static `TRIGGER_SCHEMA` to the configuration
(for any schema outcome other than the internal condition, which the
boundary clause would translate), and the result does not depend on the
device registry, the config entry manager or the readiness wait: any
`hass` with the same platform resolver gives the same answer. -/
theorem validate_static_schema_path {α β γ : Type} (hass : Hass α β γ)
    (config : ConfigType) (d : String)
    (p : DeviceAutomationTriggerProtocol α β γ)
    (hd : lookupKey config CONF_DOMAIN = some d)
    (hp : hass.async_get_device_automation_platform d .trigger = .ok p)
    (hstatic : p.async_validate_trigger_config = none) :
    (∀ r, p.TRIGGER_SCHEMA config = r →
      (∀ m, r ≠ .error (.invalidDeviceAutomationConfig m)) →
      async_validate_trigger_config hass config = r) ∧
    (∀ hass2 : Hass α β γ,
      hass2.async_get_device_automation_platform =
        hass.async_get_device_automation_platform →
      async_validate_trigger_config hass2 config =
        async_validate_trigger_config hass config) := by
  constructor
  · intro r hr hnotinv
    simp only [async_validate_trigger_config, validateBody, getKey, hd, hp,
      hstatic, hr]
    match r, hnotinv with
    | .ok c, _ => rfl
    | .error (.invalidDeviceAutomationConfig m), h =>
      exact absurd rfl (h m)
    | .error (.volInvalid m), _ => rfl
    | .error (.keyError k), _ => rfl
    | .error (.other m), _ => rfl
  · intro hass2 hres
    simp [async_validate_trigger_config, validateBody, getKey, hd, hp,
      hstatic, hres]

/-- Witness for C2: with the static platform, validation returns the
schema output, and a `hass` with empty registries gives the same answer. -/
theorem validate_static_schema_path_witness :
    async_validate_trigger_config (mkHass platformStatic true) cfgEx =
      .ok (("schema", "1") :: cfgEx) ∧
    async_validate_trigger_config hassStaticNoReg cfgEx =
      async_validate_trigger_config (mkHass platformStatic true) cfgEx := by
  have h := validate_static_schema_path (mkHass platformStatic true) cfgEx
    "light" platformStatic rfl rfl rfl
  exact ⟨h.1 (.ok (("schema", "1") :: cfgEx)) rfl
      (fun m hm => Except.noConfusion hm),
    h.2 hassStaticNoReg rfl⟩

/-- Claim C3: the config-entry scan walks the device's stored entry id
list in order and selects the first resolvable entry whose domain equals
the declared domain — it equals `find?` over the resolvable entries in
stored order.  In particular, for a device with entries
`[{id: "a", domain: "other"}, {id: "b", domain: "light"}]` and declared
domain `"light"`, entry `"b"` is selected, and validation delegates to the
dynamic validator with the original configuration. -/
theorem validate_first_matching_entry_selected :
    (∀ (getEntry : String → Option ConfigEntry) (dom : String)
        (ids : List String),
      findDeviceConfigEntry getEntry dom ids =
        (ids.filterMap getEntry).find? (fun e => e.domain == dom)) ∧
    findDeviceConfigEntry getEntryEx "light" deviceEx.config_entries =
      some entryB ∧
    async_validate_trigger_config (mkHass platformDyn true) cfgEx =
      dynOk cfgEx := by
  refine ⟨?_, rfl, rfl⟩
  intro g dom ids
  induction ids with
  | nil => rfl
  | cons i rest ih =>
    cases hg : g i with
    | none => simp [findDeviceConfigEntry, hg, ih]
    | some e =>
      by_cases hdom : e.domain = dom
      · simp [findDeviceConfigEntry, hg, hdom]
      · simp [findDeviceConfigEntry, hg, hdom, ih]

/-- The boundary clause is the identity on anything that is not the
internal condition. -/
theorem translateInvalid_eq_self (r : Except HAError ConfigType)
    (h : ∀ m, r ≠ .error (.invalidDeviceAutomationConfig m)) :
    translateInvalid r = r := by
  match r, h with
  | .ok c, _ => rfl
  | .error (.invalidDeviceAutomationConfig m), h => exact absurd rfl (h m)
  | .error (.volInvalid m), _ => rfl
  | .error (.keyError k), _ => rfl
  | .error (.other m), _ => rfl

/-- Claim C4: on the dynamic-validation path, `vol.Invalid` is raised
exactly when the device is absent or no resolvable config entry matches
the declared domain (provided the delegated validator itself produces
neither the internal condition nor `vol.Invalid`); the module's own raises
carry no message, so the surfaced message is the default
`"Invalid trigger configuration"`, while an internal condition carrying a
nonempty message has that message preserved verbatim. -/
theorem validate_invalid_error_characterization {α β γ : Type}
    (hass : Hass α β γ) (config : ConfigType) (d did : String)
    (p : DeviceAutomationTriggerProtocol α β γ)
    (v : ConfigType → Except HAError ConfigType)
    (hd : lookupKey config CONF_DOMAIN = some d)
    (hp : hass.async_get_device_automation_platform d .trigger = .ok p)
    (hv : p.async_validate_trigger_config = some v)
    (hdid : lookupKey config CONF_DEVICE_ID = some did) :
    (hass.device_registry_async_get did = none →
      async_validate_trigger_config hass config =
        .error (.volInvalid "Invalid trigger configuration")) ∧
    (∀ dev, hass.device_registry_async_get did = some dev →
      findDeviceConfigEntry hass.config_entries_async_get_entry d
        dev.config_entries = none →
      async_validate_trigger_config hass config =
        .error (.volInvalid "Invalid trigger configuration")) ∧
    ((∀ m2, v config ≠ .error (.invalidDeviceAutomationConfig m2) ∧
        v config ≠ .error (.volInvalid m2)) →
      ∀ m, async_validate_trigger_config hass config =
          .error (.volInvalid m) →
        m = "Invalid trigger configuration" ∧
        ∀ dev, hass.device_registry_async_get did = some dev →
          findDeviceConfigEntry hass.config_entries_async_get_entry d
            dev.config_entries = none) ∧
    (∀ dev entry m, hass.device_registry_async_get did = some dev →
      findDeviceConfigEntry hass.config_entries_async_get_entry d
        dev.config_entries = some entry →
      hass.config_entries_async_wait_component entry = true →
      v config = .error (.invalidDeviceAutomationConfig m) → m ≠ "" →
      async_validate_trigger_config hass config = .error (.volInvalid m)) := by
  refine ⟨?_, ?_, ?_, ?_⟩
  · intro hreg
    simp [async_validate_trigger_config, validateBody, translateInvalid,
      getKey, hd, hp, hv, hdid, hreg]
  · intro dev hreg hfind
    simp [async_validate_trigger_config, validateBody, translateInvalid,
      getKey, hd, hp, hv, hdid, hreg, hfind]
  · intro hben m hval
    cases hreg : hass.device_registry_async_get did with
    | none =>
      simp [async_validate_trigger_config, validateBody, translateInvalid,
        getKey, hd, hp, hv, hdid, hreg] at hval
      subst hval
      exact ⟨rfl, fun dev hdev => Option.noConfusion hdev⟩
    | some dev =>
      cases hfind : findDeviceConfigEntry hass.config_entries_async_get_entry
          d dev.config_entries with
      | none =>
        simp [async_validate_trigger_config, validateBody, translateInvalid,
          getKey, hd, hp, hv, hdid, hreg, hfind] at hval
        subst hval
        refine ⟨rfl, fun dev2 hdev2 => ?_⟩
        injection hdev2 with hdd
        rw [← hdd]
        exact hfind
      | some entry =>
        cases hwait : hass.config_entries_async_wait_component entry with
        | false =>
          simp [async_validate_trigger_config, validateBody,
            translateInvalid, getKey, hd, hp, hv, hdid, hreg, hfind,
            hwait] at hval
        | true =>
          simp only [async_validate_trigger_config, validateBody, getKey,
            hd, hp, hv, hdid, hreg, hfind, hwait, if_true] at hval
          rcases hvc : v config with e | c
          case ok =>
            rw [hvc] at hval
            have h2 : (Except.ok c : Except HAError ConfigType) =
                .error (.volInvalid m) := hval
            exact Except.noConfusion h2
          case error =>
            rcases e with m2 | m2 | k | m2
            · exact absurd hvc ((hben m2).1)
            · exact absurd hvc ((hben m2).2)
            · rw [hvc] at hval
              have h2 : (Except.error (HAError.keyError k) :
                  Except HAError ConfigType) = .error (.volInvalid m) := hval
              injection h2 with h3
              exact HAError.noConfusion h3
            · rw [hvc] at hval
              have h2 : (Except.error (HAError.other m2) :
                  Except HAError ConfigType) = .error (.volInvalid m) := hval
              injection h2 with h3
              exact HAError.noConfusion h3
  · intro dev entry m hreg hfind hwait hvc hm
    simp [async_validate_trigger_config, validateBody, translateInvalid,
      getKey, hd, hp, hv, hdid, hreg, hfind, hwait, hvc, hm]

/-- Witness for C4 at a concrete environment: the device id resolves to
no device, and validation surfaces `vol.Invalid` with the default
message. -/
theorem validate_invalid_error_characterization_witness :
    async_validate_trigger_config (mkHass platformDyn true)
        [("domain", "light"), ("device_id", "ghost")] =
      .error (.volInvalid "Invalid trigger configuration") :=
  (validate_invalid_error_characterization (mkHass platformDyn true)
    [("domain", "light"), ("device_id", "ghost")] "light" "ghost"
    platformDyn dynOk rfl rfl rfl rfl).1 rfl

/-- Claim C5: on the dynamic-validation path, when a matching config entry
is found and the readiness wait answers `true`, validation delegates to
the platform's dynamic validator on the original configuration and
returns its result (for any validator outcome other than the internal
condition, which the boundary clause would translate). -/
theorem validate_ready_delegates {α β γ : Type} (hass : Hass α β γ)
    (config : ConfigType) (d did : String)
    (p : DeviceAutomationTriggerProtocol α β γ)
    (v : ConfigType → Except HAError ConfigType) (dev : DeviceEntry)
    (entry : ConfigEntry) (r : Except HAError ConfigType)
    (hd : lookupKey config CONF_DOMAIN = some d)
    (hp : hass.async_get_device_automation_platform d .trigger = .ok p)
    (hv : p.async_validate_trigger_config = some v)
    (hdid : lookupKey config CONF_DEVICE_ID = some did)
    (hdev : hass.device_registry_async_get did = some dev)
    (hfind : findDeviceConfigEntry hass.config_entries_async_get_entry d
      dev.config_entries = some entry)
    (hwait : hass.config_entries_async_wait_component entry = true)
    (hr : v config = r)
    (hnotinv : ∀ m, r ≠ .error (.invalidDeviceAutomationConfig m)) :
    async_validate_trigger_config hass config = r := by
  have hstep : async_validate_trigger_config hass config =
      translateInvalid r := by
    simp [async_validate_trigger_config, validateBody, getKey, hd, hp, hv,
      hdid, hdev, hfind, hwait, hr]
  rw [hstep]
  exact translateInvalid_eq_self r hnotinv

/-- Witness for C5: with every collaborator resolving and the entry ready,
validation returns exactly the dynamic validator's output. -/
theorem validate_ready_delegates_witness :
    async_validate_trigger_config (mkHass platformDyn true) cfgEx =
      .ok (cfgEx ++ [("validated", "1")]) :=
  validate_ready_delegates (mkHass platformDyn true) cfgEx "light" "dev1"
    platformDyn dynOk deviceEx entryB (.ok (cfgEx ++ [("validated", "1")]))
    rfl rfl rfl rfl rfl rfl rfl rfl (fun _ hm => Except.noConfusion hm)

/-- Claim C6: `async_attach_trigger` resolves the platform for the
configuration's declared domain on this very call and hands the
configuration, the action callback and the trigger metadata to the
platform's attach capability unchanged, returning its detach handle
verbatim: the result is exactly the platform call's result, for arbitrary
action, metadata and handle types. -/
theorem attach_delegates_verbatim {α β γ : Type} (hass : Hass α β γ)
    (config : ConfigType) (d : String)
    (p : DeviceAutomationTriggerProtocol α β γ) (action : α)
    (trigger_info : β)
    (hd : lookupKey config CONF_DOMAIN = some d)
    (hp : hass.async_get_device_automation_platform d .trigger = .ok p) :
    async_attach_trigger hass config action trigger_info =
      p.async_attach_trigger config action trigger_info := by
  simp [async_attach_trigger, getKey, hd, hp]

/-- Witness for C6 at a concrete platform whose attach capability returns
the action argument itself, making the pass-through observable. -/
theorem attach_delegates_verbatim_witness :
    async_attach_trigger (mkHass platformDyn true) cfgEx 7 9 =
      platformDyn.async_attach_trigger cfgEx 7 9 :=
  attach_delegates_verbatim (mkHass platformDyn true) cfgEx "light"
    platformDyn 7 9 rfl rfl

/-- A `hass` whose platform resolver fails with the internal condition
carrying the message `"boom"`, as the real
`async_get_device_automation_platform` does for a domain without trigger
support. -/
def hassResolverFail : Hass Nat Nat Nat :=
  ⟨fun _ _ => .error (.invalidDeviceAutomationConfig "boom"),
    fun _ => none,
    fun _ => none,
    fun _ => false⟩

/-- Counterexample to claim C7 as stated: a resolution failure carried by
the internal `InvalidDeviceAutomationConfig` condition does **not**
propagate out of `async_validate_trigger_config` as-is — the `except`
clause around the whole body catches it and re-raises `vol.Invalid`. -/
theorem resolver_error_translated_counterexample :
    async_validate_trigger_config hassResolverFail cfgEx =
      .error (.volInvalid "boom") ∧
    async_validate_trigger_config hassResolverFail cfgEx ≠
      .error (.invalidDeviceAutomationConfig "boom") := by
  refine ⟨rfl, fun h => ?_⟩
  have h2 : (Except.error (HAError.volInvalid "boom") :
      Except HAError ConfigType) =
      .error (.invalidDeviceAutomationConfig "boom") := h
  injection h2 with h3
  exact HAError.noConfusion h3

/-- Amended claim C7: an error raised by the platform-resolution
collaborator propagates as-is from `async_attach_trigger` always, and
from `async_validate_trigger_config` whenever it is not the internal
`InvalidDeviceAutomationConfig` condition; a resolution failure carried
by the internal condition is translated at the validation boundary into
`vol.Invalid` with the condition's message, or the default
`"Invalid trigger configuration"` if the message is empty. -/
theorem resolver_error_propagation {α β γ : Type} (hass : Hass α β γ)
    (config : ConfigType) (d : String) (e : HAError)
    (hd : lookupKey config CONF_DOMAIN = some d)
    (he : hass.async_get_device_automation_platform d .trigger =
      .error e) :
    (∀ (action : α) (trigger_info : β),
      async_attach_trigger hass config action trigger_info = .error e) ∧
    ((∀ m, e ≠ .invalidDeviceAutomationConfig m) →
      async_validate_trigger_config hass config = .error e) ∧
    (∀ m, e = .invalidDeviceAutomationConfig m →
      async_validate_trigger_config hass config =
        .error (.volInvalid
          (if m = "" then "Invalid trigger configuration" else m))) := by
  refine ⟨?_, ?_, ?_⟩
  · intro action trigger_info
    simp [async_attach_trigger, getKey, hd, he]
  · intro hnot
    have hstep : async_validate_trigger_config hass config =
        translateInvalid (.error e) := by
      simp [async_validate_trigger_config, validateBody, getKey, hd, he]
    rw [hstep]
    exact translateInvalid_eq_self (.error e)
      (fun m hm => hnot m (Except.error.inj hm))
  · intro m hm
    subst hm
    simp [async_validate_trigger_config, validateBody, translateInvalid,
      getKey, hd, he]

/-- Witness for amended C7: a resolution failure carried by an ordinary
error surfaces unchanged from both operations. -/
theorem resolver_error_propagation_witness :
    async_attach_trigger (mkHass platformDyn true)
        [("domain", "switch"), ("device_id", "dev1")] 1 2 =
      .error (.other "no integration") ∧
    async_validate_trigger_config (mkHass platformDyn true)
        [("domain", "switch"), ("device_id", "dev1")] =
      .error (.other "no integration") := by
  have h := resolver_error_propagation (mkHass platformDyn true)
    [("domain", "switch"), ("device_id", "dev1")] "switch"
    (.other "no integration") rfl rfl
  exact ⟨h.1 1 2, h.2.1 (fun m hm => HAError.noConfusion hm)⟩

/-- A dynamic validator that fails with the internal condition carrying
the message `"kaboom"`. -/
def dynBoom : ConfigType → Except HAError ConfigType := fun _ =>
  .error (.invalidDeviceAutomationConfig "kaboom")

/-- A platform whose dynamic validator is `dynBoom`. -/
def platformDynBoom : DeviceAutomationTriggerProtocol Nat Nat Nat :=
  ⟨fun c => .ok c, some dynBoom, fun _ a _ => .ok a⟩

/-- Counterexample to claim C8 as stated: when the delegated dynamic
validator raises the internal `InvalidDeviceAutomationConfig` condition,
the error does **not** reach the caller unmodified — the boundary clause
of `async_validate_trigger_config` re-raises it as `vol.Invalid`. -/
theorem delegated_error_translated_counterexample :
    async_validate_trigger_config (mkHass platformDynBoom true) cfgEx =
      .error (.volInvalid "kaboom") ∧
    async_validate_trigger_config (mkHass platformDynBoom true) cfgEx ≠
      .error (.invalidDeviceAutomationConfig "kaboom") := by
  refine ⟨rfl, fun h => ?_⟩
  have h2 : (Except.error (HAError.volInvalid "kaboom") :
      Except HAError ConfigType) =
      .error (.invalidDeviceAutomationConfig "kaboom") := h
  injection h2 with h3
  exact HAError.noConfusion h3

/-- Amended claim C8: an error raised by a platform-supplied
attach-trigger implementation propagates unmodified, and an error raised
by a delegated validate-config implementation propagates unmodified
whenever it is not the internal `InvalidDeviceAutomationConfig`
condition; the internal condition is translated at the validation
boundary into `vol.Invalid` (message preserved, default when empty). -/
theorem delegated_error_propagation {α β γ : Type} (hass : Hass α β γ)
    (config : ConfigType) (d did : String)
    (p : DeviceAutomationTriggerProtocol α β γ)
    (v : ConfigType → Except HAError ConfigType) (dev : DeviceEntry)
    (entry : ConfigEntry) (action : α) (trigger_info : β)
    (hd : lookupKey config CONF_DOMAIN = some d)
    (hp : hass.async_get_device_automation_platform d .trigger = .ok p)
    (hv : p.async_validate_trigger_config = some v)
    (hdid : lookupKey config CONF_DEVICE_ID = some did)
    (hdev : hass.device_registry_async_get did = some dev)
    (hfind : findDeviceConfigEntry hass.config_entries_async_get_entry d
      dev.config_entries = some entry)
    (hwait : hass.config_entries_async_wait_component entry = true) :
    (∀ e, (∀ m, e ≠ .invalidDeviceAutomationConfig m) →
      v config = .error e →
      async_validate_trigger_config hass config = .error e) ∧
    (∀ m, v config = .error (.invalidDeviceAutomationConfig m) →
      async_validate_trigger_config hass config =
        .error (.volInvalid
          (if m = "" then "Invalid trigger configuration" else m))) ∧
    (∀ e, p.async_attach_trigger config action trigger_info = .error e →
      async_attach_trigger hass config action trigger_info = .error e) := by
  refine ⟨?_, ?_, ?_⟩
  · intro e hnot hvc
    have hstep : async_validate_trigger_config hass config =
        translateInvalid (.error e) := by
      simp [async_validate_trigger_config, validateBody, getKey, hd, hp,
        hv, hdid, hdev, hfind, hwait, hvc]
    rw [hstep]
    exact translateInvalid_eq_self (.error e)
      (fun m hm => hnot m (Except.error.inj hm))
  · intro m hvc
    simp [async_validate_trigger_config, validateBody, translateInvalid,
      getKey, hd, hp, hv, hdid, hdev, hfind, hwait, hvc]
  · intro e hatt
    simp [async_attach_trigger, getKey, hd, hp, hatt]

/-- A platform whose dynamic validator and attach capability both fail
with ordinary errors, used to witness unmodified propagation. -/
def platformDynErr : DeviceAutomationTriggerProtocol Nat Nat Nat :=
  ⟨fun c => .ok c,
    some (fun _ => .error (.other "validator failed")),
    fun _ _ _ => .error (.other "attach failed")⟩

/-- Witness for amended C8: the delegated validator failure and the
delegated attach failure both surface unchanged. -/
theorem delegated_error_propagation_witness :
    async_validate_trigger_config (mkHass platformDynErr true) cfgEx =
      .error (.other "validator failed") ∧
    async_attach_trigger (mkHass platformDynErr true) cfgEx 3 4 =
      .error (.other "attach failed") := by
  have h := delegated_error_propagation (mkHass platformDynErr true)
    cfgEx "light" "dev1" platformDynErr
    (fun _ => .error (.other "validator failed")) deviceEx entryB 3 4
    rfl rfl rfl rfl rfl rfl rfl
  exact ⟨h.1 (.other "validator failed")
      (fun m hm => HAError.noConfusion hm) rfl,
    h.2.2 (.other "attach failed") rfl⟩

/-- Claim C9: during the config-entry scan, an entry id that the config
entry manager cannot resolve is silently skipped — it neither aborts the
scan nor can it be selected: the scan's outcome on a list beginning with
an unresolvable id equals its outcome on the tail, and any selected entry
is the resolution of some listed id and matches the domain. -/
theorem unresolvable_entries_skipped :
    (∀ (getEntry : String → Option ConfigEntry) (dom i : String)
        (ids : List String), getEntry i = none →
      findDeviceConfigEntry getEntry dom (i :: ids) =
        findDeviceConfigEntry getEntry dom ids) ∧
    (∀ (getEntry : String → Option ConfigEntry) (dom : String)
        (ids : List String) (e : ConfigEntry),
      findDeviceConfigEntry getEntry dom ids = some e →
      ∃ i ∈ ids, getEntry i = some e ∧ e.domain = dom) := by
  constructor
  · intro g dom i ids hg
    simp [findDeviceConfigEntry, hg]
  · intro g dom ids
    induction ids with
    | nil => intro e he; cases he
    | cons i rest ih =>
      intro e he
      rw [findDeviceConfigEntry] at he
      cases hg : g i with
      | none =>
        rw [hg] at he
        obtain ⟨j, hj, hje, hjd⟩ := ih e he
        exact ⟨j, List.mem_cons_of_mem i hj, hje, hjd⟩
      | some e2 =>
        rw [hg] at he
        have he2 : (if e2.domain ≠ dom then findDeviceConfigEntry g dom rest
            else some e2) = some e := he
        by_cases hdom : e2.domain = dom
        · rw [if_neg (by simp [hdom])] at he2
          injection he2 with h2
          exact ⟨i, List.mem_cons_self i rest, h2 ▸ hg, h2 ▸ hdom⟩
        · rw [if_pos hdom] at he2
          obtain ⟨j, hj, hje, hjd⟩ := ih e he2
          exact ⟨j, List.mem_cons_of_mem i hj, hje, hjd⟩

/-- Witness for C9: the unresolvable id `"zzz"` in front of the example
device's entries changes nothing about the scan. -/
theorem unresolvable_entries_skipped_witness :
    findDeviceConfigEntry getEntryEx "light" ("zzz" :: ["a", "b"]) =
      findDeviceConfigEntry getEntryEx "light" ["a", "b"] :=
  unresolvable_entries_skipped.1 getEntryEx "light" "zzz" ["a", "b"] rfl

/-- Claim C10: the `domain` key is read unguarded on every call and the
`device_id` key unguarded on the dynamic path, so a missing key surfaces
as an ordinary `KeyError` — not as the external validation failure, whose
constructor is distinct — while both keys being present makes both
subscript accesses succeed. -/
theorem key_access_unguarded {α β γ : Type} (hass : Hass α β γ)
    (config : ConfigType) :
    (lookupKey config CONF_DOMAIN = none →
      async_validate_trigger_config hass config =
        .error (.keyError CONF_DOMAIN)) ∧
    (∀ d p v, lookupKey config CONF_DOMAIN = some d →
      hass.async_get_device_automation_platform d .trigger = .ok p →
      p.async_validate_trigger_config = some v →
      lookupKey config CONF_DEVICE_ID = none →
      async_validate_trigger_config hass config =
        .error (.keyError CONF_DEVICE_ID)) ∧
    ((lookupKey config CONF_DOMAIN).isSome →
      (lookupKey config CONF_DEVICE_ID).isSome →
      (∃ x, getKey config CONF_DOMAIN = .ok x) ∧
      (∃ x, getKey config CONF_DEVICE_ID = .ok x)) ∧
    (∀ k m, HAError.keyError k ≠ HAError.volInvalid m) := by
  refine ⟨?_, ?_, ?_, ?_⟩
  · intro hmiss
    simp [async_validate_trigger_config, validateBody, translateInvalid,
      getKey, hmiss]
  · intro d p v hd hp hv hmiss
    simp [async_validate_trigger_config, validateBody, translateInvalid,
      getKey, hd, hp, hv, hmiss]
  · intro h1 h2
    obtain ⟨x1, hx1⟩ := Option.isSome_iff_exists.mp h1
    obtain ⟨x2, hx2⟩ := Option.isSome_iff_exists.mp h2
    exact ⟨⟨x1, by simp [getKey, hx1]⟩, ⟨x2, by simp [getKey, hx2]⟩⟩
  · intro k m hkm
    exact HAError.noConfusion hkm

/-- Witness for C10: a configuration missing `device_id` fails with
`KeyError("device_id")` on the dynamic path, and one missing `domain`
fails with `KeyError("domain")`. -/
theorem key_access_unguarded_witness :
    async_validate_trigger_config (mkHass platformDyn true)
        [("domain", "light")] = .error (.keyError "device_id") ∧
    async_validate_trigger_config (mkHass platformDyn true)
        [("other", "x")] = .error (.keyError "domain") := by
  have h1 := (key_access_unguarded (mkHass platformDyn true)
    [("domain", "light")]).2.1 "light" platformDyn dynOk rfl rfl rfl rfl
  have h2 := (key_access_unguarded (mkHass platformDyn true)
    [("other", "x")]).1 rfl
  exact ⟨h1, h2⟩

end DeviceAutomationTrigger
